import Mathlib

/-!
Verification development for the training/evaluation driver in `main.py`
(graph neural network experiment harness).  The definitions below are a
shallow embedding of the script's pure/bookkeeping logic: the learning-rate
schedule `lr_lambda_fun`, the dataset-split precondition and slicing, the
YAML config merge performed at module level, the dataset/metric dispatch,
the best-model selection and checkpoint bookkeeping of the epoch loop, and
the test-phase CSV export of `validate`.  Epoch counts and sizes are `ℕ`;
real-valued quantities (learning-rate factors, metric values) are modelled
as `ℚ` with exact arithmetic.
-/

namespace Ocp

/-! ### Python `bisect.bisect` (= `bisect_right`)

`main.py` imports `bisect` from the standard library and calls it on the
(ascending) milestone list.  We embed the stdlib binary search itself,
fuel-indexed so that it is structurally recursive (the fuel
`a.length + 1` always suffices because `hi - lo` strictly decreases), and
prove that on a sorted list it returns the number of elements `≤ x`. -/

/-- One step of CPython's `bisect_right` loop:
`while lo < hi: mid = (lo+hi)//2; if x < a[mid]: hi = mid else: lo = mid+1`. -/
def bisectRightAux (a : List ℕ) (x : ℕ) : ℕ → ℕ → ℕ → ℕ
  | 0, lo, _ => lo
  | fuel + 1, lo, hi =>
    if lo < hi then
      if x < a.getD ((lo + hi) / 2) 0 then
        bisectRightAux a x fuel lo ((lo + hi) / 2)
      else
        bisectRightAux a x fuel ((lo + hi) / 2 + 1) hi
    else lo

/-- Python's `bisect.bisect(a, x)` (insertion point to the right of equal
entries), with `lo = 0`, `hi = len(a)`. -/
def bisect (a : List ℕ) (x : ℕ) : ℕ :=
  bisectRightAux a x (a.length + 1) 0 a.length

/-- If positions below `n` hold values `≤ x` and positions from `n` on hold
values `> x`, then the count of values `≤ x` is exactly `n`. -/
theorem countP_le_eq_of_bounds (x : ℕ) :
    ∀ (a : List ℕ) (n : ℕ), n ≤ a.length →
      (∀ i, i < n → a.getD i 0 ≤ x) →
      (∀ i, n ≤ i → i < a.length → x < a.getD i 0) →
      a.countP (fun m => m ≤ x) = n := by
  intro a
  induction a with
  | nil =>
    intro n hn _ _
    simp only [List.length_nil, Nat.le_zero] at hn
    simp [hn]
  | cons h t ih =>
    intro n hn hlow hhigh
    cases n with
    | zero =>
      rw [List.countP_eq_zero]
      intro b hb
      simp only [decide_eq_true_eq]
      rw [List.mem_iff_getElem] at hb
      obtain ⟨i, hi, rfl⟩ := hb
      have := hhigh i (Nat.zero_le i) hi
      rw [List.getD_eq_getElem?_getD, List.getElem?_eq_getElem hi] at this
      simpa using Nat.not_le_of_lt this
    | succ m =>
      rw [List.countP_cons]
      have hh : h ≤ x := by
        have := hlow 0 (Nat.succ_pos m)
        simpa using this
      rw [if_pos (by simpa using hh)]
      have ht : t.countP (fun m => m ≤ x) = m := by
        apply ih m
        · simpa using Nat.le_of_succ_le_succ hn
        · intro i hi
          have := hlow (i + 1) (Nat.succ_lt_succ hi)
          simpa using this
        · intro i hmi hi
          have := hhigh (i + 1) (Nat.succ_le_succ hmi) (by simpa using Nat.succ_lt_succ hi)
          simpa using this
      omega

/-- On a list that is monotone in its indices, the binary search maintains
the invariant that everything below `lo` is `≤ x` and everything from `hi`
on is `> x`, and returns the count of elements `≤ x`. -/
theorem bisectRightAux_eq_countP (a : List ℕ) (x : ℕ)
    (hs : ∀ i j, i ≤ j → j < a.length → a.getD i 0 ≤ a.getD j 0) :
    ∀ fuel lo hi, hi - lo < fuel → lo ≤ hi → hi ≤ a.length →
      (∀ i, i < lo → a.getD i 0 ≤ x) →
      (∀ i, hi ≤ i → i < a.length → x < a.getD i 0) →
      bisectRightAux a x fuel lo hi = a.countP (fun m => m ≤ x) := by
  intro fuel
  induction fuel with
  | zero =>
    intro lo hi hfuel
    omega
  | succ f ih =>
    intro lo hi hfuel hlohi hhilen hlow hhigh
    rw [bisectRightAux]
    by_cases hlt : lo < hi
    · rw [if_pos hlt]
      by_cases hx : x < a.getD ((lo + hi) / 2) 0
      · rw [if_pos hx]
        apply ih lo ((lo + hi) / 2) (by omega) (by omega) (by omega) hlow
        intro i hmid hi2
        exact Nat.lt_of_lt_of_le hx (hs ((lo + hi) / 2) i hmid hi2)
      · rw [if_neg hx]
        apply ih ((lo + hi) / 2 + 1) hi (by omega) (by omega) hhilen
        · intro i hi2
          have hmono : a.getD i 0 ≤ a.getD ((lo + hi) / 2) 0 :=
            hs i ((lo + hi) / 2) (by omega) (by omega)
          exact Nat.le_trans hmono (Nat.le_of_not_lt hx)
        · exact hhigh
    · rw [if_neg hlt]
      have heq : lo = hi := Nat.le_antisymm hlohi (Nat.le_of_not_lt hlt)
      subst heq
      exact (countP_le_eq_of_bounds x a lo (by omega) hlow (fun i h1 h2 => hhigh i h1 h2)).symm

/-- Monotone-in-index consequence of `List.Sorted (· ≤ ·)`. -/
theorem sorted_getD_mono :
    ∀ (a : List ℕ), List.Sorted (· ≤ ·) a →
      ∀ i j, i ≤ j → j < a.length → a.getD i 0 ≤ a.getD j 0 := by
  intro a
  induction a with
  | nil =>
    intro _ i j _ hj
    simp at hj
  | cons h t ih =>
    intro hsort i j hij hj
    rw [List.sorted_cons] at hsort
    cases i with
    | zero =>
      cases j with
      | zero => exact Nat.le_refl _
      | succ j' =>
        simp only [List.getD_cons_zero, List.getD_cons_succ]
        have hj' : j' < t.length := by simpa using Nat.lt_of_succ_lt_succ hj
        have hmem : t.getD j' 0 ∈ t := by
          rw [List.getD_eq_getElem?_getD, List.getElem?_eq_getElem hj']
          exact List.getElem_mem hj'
        exact hsort.1 _ hmem
    | succ i' =>
      cases j with
      | zero => omega
      | succ j' =>
        simp only [List.getD_cons_succ]
        exact ih hsort.2 i' j' (Nat.le_of_succ_le_succ hij)
          (by simpa using Nat.lt_of_succ_lt_succ hj)

/-- On an ascending list, Python's `bisect.bisect` returns the number of
entries that are `≤ x`. -/
theorem bisect_eq_countP (a : List ℕ) (x : ℕ) (hs : List.Sorted (· ≤ ·) a) :
    bisect a x = a.countP (fun m => m ≤ x) := by
  apply bisectRightAux_eq_countP a x (sorted_getD_mono a hs) (a.length + 1) 0 a.length
    (by omega) (Nat.zero_le _) (Nat.le_refl _)
  · intro i hi
    omega
  · intro i hi hlen
    omega

/-! ### Learning-rate schedule (`lr_lambda_fun`, `main.py:180-190`) -/

/-- The `optim` section fields consulted by `lr_lambda_fun`. -/
structure OptimConfig where
  warmup_epochs : ℕ
  warmup_factor : ℚ
  lr_milestones : List ℕ
  lr_gamma : ℚ

/-- `lr_lambda_fun` from `main.py`: till `warmup_epochs` the multiplier
interpolates linearly (`alpha = current_epoch / warmup_epochs`,
result `warmup_factor * (1 - alpha) + alpha`); afterwards it is
`lr_gamma ** bisect(lr_milestones, current_epoch)`. -/
def lr_lambda_fun (cfg : OptimConfig) (current_epoch : ℕ) : ℚ :=
  if current_epoch ≤ cfg.warmup_epochs then
    cfg.warmup_factor * (1 - (current_epoch : ℚ) / (cfg.warmup_epochs : ℚ))
      + (current_epoch : ℚ) / (cfg.warmup_epochs : ℚ)
  else
    cfg.lr_gamma ^ bisect cfg.lr_milestones current_epoch

/-! ### Config merge (module level, `main.py:66-78`)

YAML loading is modelled by a map `files : String → Config` from paths to
already-parsed top-level mappings.  Top-level values are opaque except
where the merge inspects them (`isinstance(includes, list)`), so a small
value type with a Python type name suffices.  A parsed mapping is an
association list with at most one binding per key (Python `dict`
semantics are captured by first-match lookup together with
`dictUpdate` removing overridden bindings). -/

/-- A top-level YAML value, as far as the merge logic inspects it. -/
inductive YVal where
  | str : String → YVal
  | int : Int → YVal
  | list : List String → YVal
deriving DecidableEq

/-- Python's `type(v)` rendered as in an f-string / `format` call. -/
def YVal.pyType : YVal → String
  | .str _ => "<class 'str'>"
  | .int _ => "<class 'int'>"
  | .list _ => "<class 'list'>"

/-- A parsed YAML mapping: keys to values. -/
abbrev Config := List (String × YVal)

/-- The Python exceptions raised by the script's configuration handling. -/
inductive PyError where
  | attributeError : String → PyError
  | keyError : String → PyError
  | notImplementedError : PyError
  | nameError : String → PyError
deriving DecidableEq

/-- The message attached to each exception.  `raise NotImplementedError`
(`main.py:134`) passes no arguments, so its message is empty. -/
def PyError.message : PyError → String
  | .attributeError s => s
  | .keyError s => s
  | .notImplementedError => ""
  | .nameError s => s

/-- `d.get(k)`: first binding for `k`, if any. -/
def dictGet (d : Config) (k : String) : Option YVal :=
  (d.find? (fun kv => kv.1 = k)).map Prod.snd

/-- `d.update(other)`: bindings of `other` overwrite those of `d`. -/
def dictUpdate (d other : Config) : Config :=
  d.filter (fun kv => (other.find? (fun kv2 => kv2.1 = kv.1)).isNone) ++ other

/-- `d.pop(k)` with no default: removes the binding for `k`, raising
`KeyError` when the key is absent. -/
def dictPop (d : Config) (k : String) : Except PyError Config :=
  if d.any (fun kv => kv.1 = k) then
    .ok (d.filter (fun kv => kv.1 ≠ k))
  else
    .error (.keyError k)

/-- The module-level config merge of `main.py:66-78`:
`includes = config.get("includes", [])`; reject a non-list `includes`
with an `AttributeError` naming its type; `config.update(...)` for each
include in order; finally `config.pop("includes")`. -/
def mergeConfig (files : String → Config) (basePath : String) :
    Except PyError Config :=
  match (dictGet (files basePath) "includes").getD (.list []) with
  | .list incs =>
      dictPop (incs.foldl (fun cfg inc => dictUpdate cfg (files inc)) (files basePath))
        "includes"
  | v => .error (.attributeError ("Includes must be a list, " ++ v.pyType ++ " provided"))

/-- `v` occurs verbatim inside `msg`. -/
def containsValue (msg v : String) : Prop :=
  ∃ pre post : String, msg = pre ++ v ++ post

/-! ### Dataset and metric dispatch (`main.py:118-134`, `main.py:262`) -/

/-- The dataset dispatch of `main.py:119-134`: three recognized names,
any other name raises a bare `NotImplementedError`. -/
def selectDataset (name : String) : Except PyError String :=
  if name = "ulissigroup_co" then .ok "UlissigroupCO"
  else if name = "xie_grossman_mat_proj" then .ok "XieGrossmanMatProj"
  else if name = "qm9" then .ok "QM9"
  else .error .notImplementedError

/-- The metric dispatch `eval(config["task"]["metric"])` of
`main.py:262,334` restricted to identifier-shaped metric names: the two
functions imported from `cgcnn.meter` resolve, and any other identifier
raises `NameError("name '...' is not defined")` (CPython's message for an
undefined name). -/
def selectMetric (name : String) : Except PyError String :=
  if name = "mae" then .ok "mae"
  else if name = "mae_ratio" then .ok "mae_ratio"
  else .error (.nameError ("name '" ++ name ++ "' is not defined"))

/-! ### Dataset split (`main.py:136-146`) -/

/-- The precondition `assert len(dataset) > tr_sz + va_sz + te_sz`
(`main.py:142`): `true` iff the assertion passes. -/
def splitSizesOk (datasetLen tr va te : ℕ) : Bool :=
  tr + va + te < datasetLen

/-- `dataset[:tr_sz]` on the (already shuffled) dataset. -/
def train_dataset (ds : List α) (tr : ℕ) : List α :=
  ds.take tr

/-- `dataset[tr_sz : tr_sz + va_sz]`. -/
def val_dataset (ds : List α) (tr va : ℕ) : List α :=
  (ds.take (tr + va)).drop tr

/-- `dataset[tr_sz + va_sz : tr_sz + va_sz + te_sz]`. -/
def test_dataset (ds : List α) (tr va te : ℕ) : List α :=
  (ds.take (tr + va + te)).drop (tr + va)

/-! ### Best-model selection and checkpointing (`main.py:115`, `198-233`) -/

/-- The comparison at `main.py:207-213`: for `task.type == "regression"`,
`is_best = mae_error < best_mae_error` and the best becomes the `min`;
otherwise `is_best = mae_error > best_mae_error` and the best becomes the
`max`.  Returns `(is_best, new best_mae_error)`. -/
def updateBest (taskType : String) (mae_error best_mae_error : ℚ) : Bool × ℚ :=
  if taskType = "regression" then
    (mae_error < best_mae_error, min mae_error best_mae_error)
  else
    (mae_error > best_mae_error, max mae_error best_mae_error)

/-- `best_mae_error = 1e10` (`main.py:115`), set before any task-type
branch is consulted. -/
def initial_best_mae_error : ℚ := 10 ^ 10

/-- A value in the checkpoint dictionary.  Model parameters, optimizer
state, normalizer state and the config snapshot are opaque collaborator
state; only the epoch number and the best metric are inspected here. -/
inductive CkptVal where
  | num : ℕ → CkptVal
  | metric : ℚ → CkptVal
  | blob : String → CkptVal
deriving DecidableEq

/-- The dictionary passed to `save_checkpoint` at `main.py:214-225`,
with exactly these six keys in this order. -/
def checkpointRecord (epoch : ℕ) (best : ℚ) : List (String × CkptVal) :=
  [("epoch", .num epoch),
   ("state_dict", .blob "model.state_dict()"),
   ("best_mae_error", .metric best),
   ("optimizer", .blob "optimizer.state_dict()"),
   ("normalizer", .blob "normalizer.state_dict()"),
   ("config", .blob "config")]

/-- Contents of the checkpoint directory: the per-epoch checkpoint file
and the best-model copy, each `none` until first written. -/
structure SaveState where
  latest : Option (List (String × CkptVal))
  best : Option (List (String × CkptVal))
deriving DecidableEq

/-- Modelled from the spec: `save_checkpoint` lives in `cgcnn/utils`,
which is not part of this source tree.  Per the spec's checkpoint
contract, it persists the record on every call and writes a second
("best") copy exactly when `is_best` is true. -/
def save_checkpoint (state : List (String × CkptVal)) (is_best : Bool)
    (dir : SaveState) : SaveState :=
  { latest := some state
    best := if is_best then some state else dir.best }

/-- The training-loop state threaded through the epoch loop: the running
`best_mae_error`, the number of completed epochs, and the checkpoint
directory contents. -/
structure TrainState where
  best_mae_error : ℚ
  epoch : ℕ
  saved : SaveState
deriving DecidableEq

/-- State on entry to the epoch loop (`main.py:115`, empty checkpoint
directory). -/
def initTrainState : TrainState :=
  { best_mae_error := initial_best_mae_error, epoch := 0, saved := ⟨none, none⟩ }

/-- The end-of-epoch bookkeeping (`main.py:207-225`): update
`is_best` / `best_mae_error` by task type, then call `save_checkpoint`
with the six-key record (`"epoch": epoch + 1`). -/
def epochEnd (taskType : String) (mae_error : ℚ) (st : TrainState) : TrainState :=
  let ib := updateBest taskType mae_error st.best_mae_error
  { best_mae_error := ib.2
    epoch := st.epoch + 1
    saved := save_checkpoint (checkpointRecord (st.epoch + 1) ib.2) ib.1 st.saved }

/-- The epoch loop of `main.py:198-225`, abstracted over the sequence of
per-epoch validation metric values. -/
def runEpochs (taskType : String) (metrics : List ℚ) : TrainState :=
  metrics.foldl (fun st m => epochEnd taskType m st) initTrainState

/-! ### Test-phase CSV export (`validate`, `main.py:307-391`) -/

/-- The per-sample accumulators of `validate(..., test=True)`
(`main.py:312-315`). -/
structure TestCollector where
  test_targets : List ℚ
  test_preds : List ℚ
  test_cif_ids : List String
deriving DecidableEq

/-- `test_targets = []; test_preds = []; test_cif_ids = []`. -/
def initCollector : TestCollector :=
  { test_targets := [], test_preds := [], test_cif_ids := [] }

/-- The `if test:` block of the batch loop (`main.py:339-343`): extend
`test_preds` and `test_targets` with the batch's per-sample values;
`test_cif_ids` is never appended to anywhere in `validate`. -/
def processBatch (c : TestCollector) (targets preds : List ℚ) : TestCollector :=
  { c with
    test_preds := c.test_preds ++ preds
    test_targets := c.test_targets ++ targets }

/-- Run the test-phase batch loop over a list of
(batch targets, batch predictions) pairs. -/
def collectTest (batches : List (List ℚ × List ℚ)) : TestCollector :=
  batches.foldl (fun c b => processBatch c b.1 b.2) initCollector

/-- The rows written to `test_results.csv` (`main.py:388-391`):
`zip(test_cif_ids, test_targets, test_preds)`, whose length is the
minimum of the three lists' lengths. -/
def csvRows (c : TestCollector) : List (String × ℚ × ℚ) :=
  c.test_cif_ids.zip (c.test_targets.zip c.test_preds)

/-! ## Claims -/

/-- C1 (counterexample): for a dataset of length exactly
`train_size + val_size + test_size` (100 = 60 + 20 + 20) the requested
sizes do not exceed the dataset size, yet the assertion
`len(dataset) > tr_sz + va_sz + te_sz` fails. -/
theorem splitSizesOk_boundary_counterexample :
    60 + 20 + 20 ≤ 100 ∧ splitSizesOk 100 60 20 20 = false := by
  decide

/-- C1 (amended): the dataset-split assertion passes iff the dataset
length strictly exceeds `train_size + val_size + test_size`; it fails iff
the requested sizes equal or exceed the dataset length. -/
theorem splitSizesOk_iff (n tr va te : ℕ) :
    splitSizesOk n tr va te = true ↔ tr + va + te < n := by
  simp [splitSizesOk]

/-- C2 (counterexample): with `warmup_epochs = 5`, `lr_milestones = [10, 20]`,
`lr_gamma = 1/10`, at epoch 10 the number of milestones strictly below the
epoch is 0, so the claim predicts multiplier `lr_gamma ^ 0 = 1`; the code
returns `1/10` (Python's `bisect` counts milestones `≤` the epoch). -/
theorem lr_milestone_boundary_counterexample :
    (([10, 20] : List ℕ).countP (fun m => m < 10)) = 0 ∧
    lr_lambda_fun ⟨5, 1/5, [10, 20], 1/10⟩ 10 = 1/10 ∧
    lr_lambda_fun ⟨5, 1/5, [10, 20], 1/10⟩ 10 ≠ (1/10 : ℚ) ^ 0 := by
  have hb : bisect [10, 20] 10 = 1 := by decide
  refine ⟨by decide, ?_, ?_⟩ <;> simp only [lr_lambda_fun] <;> norm_num [hb]

/-- C2 (amended): with `warmup_epochs > 0` and milestones sorted
ascending, the multiplier is a pure function of the config and epoch:
`warmup_factor` at epoch 0, `1` at epoch `warmup_epochs`, linear
interpolation `warmup_factor + (1 - warmup_factor) * (e / warmup_epochs)`
for `e ≤ warmup_epochs`, and `lr_gamma ^ k` for `e > warmup_epochs` where
`k` is the count of milestones less than **or equal to** `e`. -/
theorem lr_lambda_fun_characterization (cfg : OptimConfig) (e : ℕ)
    (hw : 0 < cfg.warmup_epochs) (hs : List.Sorted (· ≤ ·) cfg.lr_milestones) :
    lr_lambda_fun cfg 0 = cfg.warmup_factor ∧
    lr_lambda_fun cfg cfg.warmup_epochs = 1 ∧
    (e ≤ cfg.warmup_epochs →
      lr_lambda_fun cfg e =
        cfg.warmup_factor + (1 - cfg.warmup_factor) * ((e : ℚ) / (cfg.warmup_epochs : ℚ))) ∧
    (cfg.warmup_epochs < e →
      lr_lambda_fun cfg e = cfg.lr_gamma ^ (cfg.lr_milestones.countP (fun m => m ≤ e))) := by
  have hw' : (cfg.warmup_epochs : ℚ) ≠ 0 := by
    exact_mod_cast Nat.pos_iff_ne_zero.mp hw
  refine ⟨?_, ?_, ?_, ?_⟩
  · rw [lr_lambda_fun, if_pos (Nat.zero_le _)]
    push_cast
    ring
  · rw [lr_lambda_fun, if_pos (Nat.le_refl _), div_self hw']
    ring
  · intro he
    rw [lr_lambda_fun, if_pos he]
    ring
  · intro he
    rw [lr_lambda_fun, if_neg (by omega), bisect_eq_countP _ _ hs]

/-- C2 (witness): the amended characterization applied to the concrete
config `warmup_epochs = 5, warmup_factor = 1/5, lr_milestones = [10, 20],
lr_gamma = 1/10` at epoch 25. -/
theorem lr_lambda_fun_characterization_witness :
    0 < (5 : ℕ) ∧ List.Sorted (fun a b => a ≤ b) ([10, 20] : List ℕ) ∧
    lr_lambda_fun ⟨5, 1/5, [10, 20], 1/10⟩ 25
      = (1/10 : ℚ) ^ (([10, 20] : List ℕ).countP (fun m => m ≤ 25)) :=
  ⟨by decide, by decide,
    (lr_lambda_fun_characterization ⟨5, 1/5, [10, 20], 1/10⟩ 25
      (by decide) (by decide)).2.2.2 (by decide)⟩

/-- C7: with `warmup_epochs = 5` and `warmup_factor = 1/5`, the
multiplier is `1/5` at epoch 0, `1` at epoch 5, and linear in between
(successive values `1/5, 9/25, 13/25, 17/25, 21/25, 1` differ by the
constant step `4/25`); with `lr_milestones = [10, 20]` and
`lr_gamma = 1/10` (warmup past), the multiplier at epoch 15 is `1/10` and
at epoch 25 is `1/100`. -/
theorem lr_schedule_examples :
    lr_lambda_fun ⟨5, 1/5, [10, 20], 1/10⟩ 0 = 1/5 ∧
    lr_lambda_fun ⟨5, 1/5, [10, 20], 1/10⟩ 1 = 9/25 ∧
    lr_lambda_fun ⟨5, 1/5, [10, 20], 1/10⟩ 2 = 13/25 ∧
    lr_lambda_fun ⟨5, 1/5, [10, 20], 1/10⟩ 3 = 17/25 ∧
    lr_lambda_fun ⟨5, 1/5, [10, 20], 1/10⟩ 4 = 21/25 ∧
    lr_lambda_fun ⟨5, 1/5, [10, 20], 1/10⟩ 5 = 1 ∧
    lr_lambda_fun ⟨5, 1/5, [10, 20], 1/10⟩ 15 = 1/10 ∧
    lr_lambda_fun ⟨5, 1/5, [10, 20], 1/10⟩ 25 = 1/100 := by
  have h15 : bisect [10, 20] 15 = 1 := by decide
  have h25 : bisect [10, 20] 25 = 2 := by decide
  refine ⟨?_, ?_, ?_, ?_, ?_, ?_, ?_, ?_⟩ <;>
    simp only [lr_lambda_fun] <;> norm_num [h15, h25]

/-- C3 (code bug): running the test-phase loop over two batches of one
sample each collects 2 targets and 2 predictions, but
`zip(test_cif_ids, test_targets, test_preds)` produces 0 CSV rows,
because `test_cif_ids` is initialized empty and never appended to. -/
theorem test_csv_rows_empty :
    (collectTest [([2], [5/2]), ([3], [7/2])]).test_targets.length = 2 ∧
    (collectTest [([2], [5/2]), ([3], [7/2])]).test_preds.length = 2 ∧
    (collectTest [([2], [5/2]), ([3], [7/2])]).test_cif_ids = [] ∧
    (csvRows (collectTest [([2], [5/2]), ([3], [7/2])])).length = 0 :=
  ⟨rfl, rfl, rfl, rfl⟩

/-- C4 (code bug): for a base config whose optional `includes` key is
absent, the merge does not succeed: `config.get("includes", [])` defaults
to the empty list, but the final `config.pop("includes")` (no default)
raises `KeyError('includes')`. -/
theorem merge_missing_includes_keyerror :
    mergeConfig (fun p => if p = "base.yml" then [("task", YVal.str "regression")] else [])
        "base.yml"
      = .error (.keyError "includes") := by
  rfl

/-- C9 (counterexample): an unrecognized dataset name ("materials21")
raises a bare `NotImplementedError` whose message is empty, so the
offending value does not appear in the message. -/
theorem dataset_error_message_counterexample :
    selectDataset "materials21" = .error .notImplementedError ∧
    PyError.message .notImplementedError = "" ∧
    ¬ containsValue (PyError.message PyError.notImplementedError) "materials21" := by
  refine ⟨rfl, rfl, ?_⟩
  rintro ⟨pre, post, hmsg⟩
  rw [show PyError.message PyError.notImplementedError = "" from rfl] at hmsg
  have hlen := congrArg String.length hmsg
  rw [String.length_append, String.length_append] at hlen
  have h0 : ("" : String).length = 0 := rfl
  have h11 : ("materials21" : String).length = 11 := rfl
  omega

/-- C9 (amended): the bad-`includes` error message names the offending
type and the unknown-metric `NameError` names the offending metric, but an
unrecognized dataset name raises a bare `NotImplementedError` whose
message is empty. -/
theorem config_error_messages (files : String → Config) (base : String)
    (v : YVal) (hv : dictGet (files base) "includes" = some v)
    (hnl : ∀ l, v ≠ YVal.list l)
    (dsname mname : String)
    (hds : dsname ≠ "ulissigroup_co" ∧ dsname ≠ "xie_grossman_mat_proj" ∧ dsname ≠ "qm9")
    (hm : mname ≠ "mae" ∧ mname ≠ "mae_ratio") :
    (mergeConfig files base
        = .error (.attributeError ("Includes must be a list, " ++ v.pyType ++ " provided")) ∧
      containsValue ("Includes must be a list, " ++ v.pyType ++ " provided") v.pyType) ∧
    (selectDataset dsname = .error .notImplementedError ∧
      PyError.message PyError.notImplementedError = "") ∧
    (selectMetric mname = .error (.nameError ("name '" ++ mname ++ "' is not defined")) ∧
      containsValue ("name '" ++ mname ++ "' is not defined") mname) := by
  refine ⟨⟨?_, "Includes must be a list, ", " provided", rfl⟩,
    ⟨?_, rfl⟩, ⟨?_, "name '", "' is not defined", rfl⟩⟩
  · cases v with
    | list l => exact absurd rfl (hnl l)
    | str s => simp only [mergeConfig, hv, Option.getD_some, YVal.pyType]
    | int n => simp only [mergeConfig, hv, Option.getD_some, YVal.pyType]
  · simp only [selectDataset, if_neg hds.1, if_neg hds.2.1, if_neg hds.2.2]
  · simp only [selectMetric, if_neg hm.1, if_neg hm.2]

/-- C9 (witness): the amended statement at the concrete inputs
`includes = 3` (an int), dataset name "ase_db", metric name "rmse". -/
theorem config_error_messages_witness :
    mergeConfig (fun _ => [("includes", YVal.int 3)]) "base.yml"
      = .error (.attributeError ("Includes must be a list, " ++ (YVal.int 3).pyType ++ " provided")) ∧
    selectMetric "rmse" = .error (.nameError ("name '" ++ "rmse" ++ "' is not defined")) :=
  ⟨(config_error_messages (fun _ => [("includes", YVal.int 3)]) "base.yml" (YVal.int 3) rfl
      (fun l h => YVal.noConfusion h) "ase_db" "rmse"
      ⟨by decide, by decide, by decide⟩ ⟨by decide, by decide⟩).1.1,
   (config_error_messages (fun _ => [("includes", YVal.int 3)]) "base.yml" (YVal.int 3) rfl
      (fun l h => YVal.noConfusion h) "ase_db" "rmse"
      ⟨by decide, by decide, by decide⟩ ⟨by decide, by decide⟩).2.2.1⟩

/-- C6: for `task.type == "regression"`, `is_best` holds exactly when the
epoch's metric is strictly below best-so-far and the best becomes the
minimum of the two; for any other task type, `is_best` holds exactly when
the metric is strictly above best-so-far and the best becomes the
maximum. -/
theorem direction_of_improvement (t : String) (m b : ℚ) (h : t ≠ "regression") :
    ((updateBest "regression" m b).1 = true ↔ m < b) ∧
    (updateBest "regression" m b).2 = min m b ∧
    ((updateBest t m b).1 = true ↔ b < m) ∧
    (updateBest t m b).2 = max m b := by
  simp [updateBest, h]

/-- C6 (witness): a non-regression task type ("binary") at metric 5
against best-so-far 3. -/
theorem direction_of_improvement_witness :
    ("binary" : String) ≠ "regression" ∧
    ((updateBest "binary" 5 3).1 = true ↔ (3 : ℚ) < 5) :=
  ⟨by decide, (direction_of_improvement "binary" 5 3 (by decide)).2.2.1⟩

/-- C5: the end-of-epoch bookkeeping writes a checkpoint record with
exactly the keys `epoch`, `state_dict`, `best_mae_error`, `optimizer`,
`normalizer`, `config` on every epoch, and updates the "best" copy
exactly when the epoch's validation metric improves on best-so-far in
the task-type-dependent direction (`save_checkpoint` itself modelled
from the spec). -/
theorem checkpoint_written_every_epoch (t : String) (m : ℚ) (st : TrainState) :
    ((epochEnd t m st).saved.latest
        = some (checkpointRecord (st.epoch + 1) (updateBest t m st.best_mae_error).2)) ∧
    ((checkpointRecord (st.epoch + 1) (updateBest t m st.best_mae_error).2).map Prod.fst
        = ["epoch", "state_dict", "best_mae_error", "optimizer", "normalizer", "config"]) ∧
    ((updateBest t m st.best_mae_error).1 = true ↔
        (if t = "regression" then m < st.best_mae_error else st.best_mae_error < m)) ∧
    ((epochEnd t m st).saved.best
        = if (updateBest t m st.best_mae_error).1
            then some (checkpointRecord (st.epoch + 1) (updateBest t m st.best_mae_error).2)
            else st.saved.best) := by
  refine ⟨rfl, rfl, ?_, rfl⟩
  by_cases ht : t = "regression" <;> simp [updateBest, ht]

/-- C8: after the single shuffle, the three splits are the contiguous
index ranges `[0, tr)`, `[tr, tr + va)` and `[tr + va, tr + va + te)` of
the shuffled dataset, in that order: each has the requested length, each
position holds the dataset element at the corresponding offset, and their
concatenation is exactly the first `tr + va + te` elements (so they are
mutually disjoint, no element assigned twice, no reshuffling between
phases). -/
theorem dataset_split_ranges (ds : List α) (tr va te : ℕ)
    (h : tr + va + te ≤ ds.length) :
    (train_dataset ds tr).length = tr ∧
    (val_dataset ds tr va).length = va ∧
    (test_dataset ds tr va te).length = te ∧
    (∀ i, i < tr → (train_dataset ds tr)[i]? = ds[i]?) ∧
    (∀ i, i < va → (val_dataset ds tr va)[i]? = ds[tr + i]?) ∧
    (∀ i, i < te → (test_dataset ds tr va te)[i]? = ds[tr + va + i]?) ∧
    train_dataset ds tr ++ val_dataset ds tr va ++ test_dataset ds tr va te
      = ds.take (tr + va + te) := by
  refine ⟨?_, ?_, ?_, ?_, ?_, ?_, ?_⟩
  · simp only [train_dataset, List.length_take]
    omega
  · simp only [val_dataset, List.length_drop, List.length_take]
    omega
  · simp only [test_dataset, List.length_drop, List.length_take]
    omega
  · intro i hi
    rw [train_dataset, List.getElem?_take, if_pos hi]
  · intro i hi
    rw [val_dataset, List.getElem?_drop, List.getElem?_take, if_pos (by omega)]
  · intro i hi
    rw [test_dataset, List.getElem?_drop, List.getElem?_take, if_pos (by omega)]
  · have h1 : (ds.take (tr + va)).take tr = ds.take tr := by
      rw [List.take_take]
      congr 1
      omega
    have h2 : (ds.take (tr + va + te)).take (tr + va) = ds.take (tr + va) := by
      rw [List.take_take]
      congr 1
      omega
    rw [train_dataset, val_dataset, test_dataset, ← h1, List.take_append_drop, ← h2,
      List.take_append_drop]

/-- C8 (witness): the split of the 100-element dataset `range 100` with
`train = 60`, `val = 20`, `test = 20`. -/
theorem dataset_split_ranges_witness :
    60 + 20 + 20 ≤ (List.range 100).length ∧
    (val_dataset (List.range 100) 60 20).length = 20 ∧
    (val_dataset (List.range 100) 60 20)[0]? = (List.range 100)[60 + 0]? :=
  ⟨by decide, (dataset_split_ranges (List.range 100) 60 20 20 (by decide)).2.1,
   (dataset_split_ranges (List.range 100) 60 20 20 (by decide)).2.2.2.2.1 0 (by decide)⟩

/-- For a non-regression task, starting from a state whose best-copy file
is unwritten and whose running best is at least the initial `1e10`, epochs
whose metrics stay `≤ 1e10` never write the best-copy file. -/
theorem foldl_best_none (t : String) (ht : t ≠ "regression") :
    ∀ (metrics : List ℚ) (st : TrainState),
      st.saved.best = none → initial_best_mae_error ≤ st.best_mae_error →
      (∀ m ∈ metrics, m ≤ initial_best_mae_error) →
      (metrics.foldl (fun s m => epochEnd t m s) st).saved.best = none := by
  intro metrics
  induction metrics with
  | nil =>
    intro st hb _ _
    simpa using hb
  | cons m ms ih =>
    intro st hb hge hall
    rw [List.foldl_cons]
    apply ih
    · have hmle : ¬ (st.best_mae_error < m) :=
        not_lt.mpr (le_trans (hall m (List.mem_cons_self m ms)) hge)
      simp [epochEnd, save_checkpoint, updateBest, ht, hmle, hb]
    · have : initial_best_mae_error ≤ max m st.best_mae_error :=
        le_trans hge (le_max_right m st.best_mae_error)
      simpa [epochEnd, updateBest, ht] using this
    · exact fun m' hm' => hall m' (List.mem_cons_of_mem m hm')

/-- C10: `best_mae_error` starts at the constant `1e10` regardless of
task type; hence for a regression task any first-epoch metric below
`1e10` is marked best, while for a non-regression task the first epoch is
best only when its metric strictly exceeds `1e10` — and when every
epoch's metric stays `≤ 1e10`, no epoch is ever marked best and the
best-model file is never written, leaving nothing for the final reload of
`model_best.pth.tar` to read. -/
theorem best_init_consequences (t : String) (m : ℚ) (metrics : List ℚ)
    (ht : t ≠ "regression") (hall : ∀ x ∈ metrics, x ≤ initial_best_mae_error) :
    initTrainState.best_mae_error = 10 ^ 10 ∧
    (m < 10 ^ 10 → (updateBest "regression" m initTrainState.best_mae_error).1 = true) ∧
    ((updateBest t m initTrainState.best_mae_error).1 = true ↔ 10 ^ 10 < m) ∧
    (runEpochs t metrics).saved.best = none := by
  refine ⟨rfl, ?_, ?_, ?_⟩
  · intro hm
    simp [updateBest, initTrainState, initial_best_mae_error, hm]
  · simp [updateBest, initTrainState, initial_best_mae_error, ht]
  · exact foldl_best_none t ht metrics initTrainState rfl (le_refl _) hall

/-- C10 (witness): a non-regression task ("binary") with the bounded
metric sequence `[1, 2]` never writes a best-model copy. -/
theorem best_init_consequences_witness :
    ("binary" : String) ≠ "regression" ∧
    (∀ x ∈ ([1, 2] : List ℚ), x ≤ initial_best_mae_error) ∧
    (runEpochs "binary" [1, 2]).saved.best = none :=
  ⟨by decide, by norm_num [initial_best_mae_error],
   (best_init_consequences "binary" 0 [1, 2] (by decide)
     (by norm_num [initial_best_mae_error])).2.2.2⟩

end Ocp
